import Mathlib

/-!
Verification of the NEAR product-registry contract (`src/lib.rs` of
SmartContractNear).

The contract is a keyed store of `Item` records guarded by role-based access
control and a single owner.  We embed it shallowly:

* `Product` is the contract struct (`records`, `owner`, `access`); the two
  `LookupMap`s are modelled as association lists.
* Fallible entry points return `Except String α`; a NEAR panic (`assert!`,
  `assert_eq!`) is an `Except.error` carrying the panic message, and the host
  discards the new state on panic (`run_new`, `runMut`).
* `env::signer_account_id()` / `env::predecessor_account_id()` are fields of an
  explicit `Env` argument.  `AccountId` is `String` (near-sdk 3.x).
* `AccessControl` (`utils/access_control.rs`, declared by `mod utils;` but not
  present in the sources) is modelled from the spec, see its doc comment.
* `StorageModel` additionally models the byte-level NEAR storage trie that both
  `LookupMap`s write through, because `lib.rs` constructs both maps with the
  identical storage prefix `b"a"`, so their entries can collide.
-/

namespace SmartContractNear

/-- NEAR account identifier; in near-sdk 3.x `AccountId` is `String`. -/
abbrev AccountId := String

/-- The parts of the NEAR invocation context read by the contract. -/
structure Env where
  signer_account_id : AccountId
  predecessor_account_id : AccountId
  deriving DecidableEq, Repr

/-- `Item { name: String, price: u128, stock: u8 }`.  The contract stores and
returns these fields verbatim and performs no arithmetic on them, so `price`
and `stock` are carried as natural numbers. -/
structure Item where
  name : String
  price : Nat
  stock : Nat
  deriving DecidableEq, Repr

/-- `const ROLE_SET_PRODUCT: &str = "ROLE_SET_PRODUCT"`. -/
def ROLE_SET_PRODUCT : String := "ROLE_SET_PRODUCT"

/-- `const ROLE_DELETE_PRODUCT: &str = "ROLE_DELETE_PRODUCT"`. -/
def ROLE_DELETE_PRODUCT : String := "ROLE_DELETE_PRODUCT"

/-- `LookupMap::get`: first value bound to `k`, if any. -/
def assocLookup {α β : Type} [BEq α] (m : List (α × β)) (k : α) : Option β :=
  match m with
  | [] => none
  | (k', v) :: rest => if k' == k then some v else assocLookup rest k

/-- `LookupMap::insert`: bind `k` to `v`, replacing any previous binding. -/
def assocInsert {α β : Type} [BEq α] (m : List (α × β)) (k : α) (v : β) :
    List (α × β) :=
  match m with
  | [] => [(k, v)]
  | (k', v') :: rest =>
    if k' == k then (k, v) :: rest else (k', v') :: assocInsert rest k v

/-- `LookupMap::remove`: drop every binding of `k`. -/
def assocRemove {α β : Type} [BEq α] (m : List (α × β)) (k : α) :
    List (α × β) :=
  m.filter (fun e => !(e.1 == k))

/-- Modelled from the spec: the file `utils/access_control.rs` (declared by
`mod utils;` in `lib.rs`) is not among the sources; per the spec §4.1,
`AccessControl` is "a mapping from Role → set-of-Principal", held in the
`roles` LookupMap that `lib.rs` constructs with prefix `b"a"`.  The set of
holders of a role is kept as a duplicate-free list. -/
structure AccessControl where
  roles : List (String × List AccountId)
  deriving DecidableEq, Repr

/-- Modelled from the spec: `setup_role(role, principal)` "idempotently adds
`principal` to the set of holders of `role`.  No preconditions on `role`'s
prior existence ... No error conditions; always succeeds." -/
def setupRoleList (m : List (String × List AccountId)) (role acct : String) :
    List (String × List AccountId) :=
  match m with
  | [] => [(role, [acct])]
  | (r, hs) :: rest =>
    if r == role then
      (r, if hs.contains acct then hs else acct :: hs) :: rest
    else
      (r, hs) :: setupRoleList rest role acct

/-- Modelled from the spec (see `setupRoleList`). -/
def AccessControl.setup_role (ac : AccessControl) (role acct : String) :
    AccessControl :=
  ⟨setupRoleList ac.roles role acct⟩

/-- Modelled from the spec: `has_role(role, principal) -> bool` "returns
whether `principal` is currently recorded as holding `role`.  Absent role or
absent principal within an existing role both yield `false`." -/
def AccessControl.has_role (ac : AccessControl) (role acct : String) : Bool :=
  match assocLookup ac.roles role with
  | some hs => hs.contains acct
  | none => false

/-- The `Product` contract struct: `records: LookupMap<String, Item>`,
`owner: AccountId`, `access: AccessControl`. -/
structure Product where
  records : List (String × Item)
  owner : AccountId
  access : AccessControl
  deriving DecidableEq, Repr

/-- `Ownable::assert_owner` (near-contract-standards):
`assert_eq!(env::predecessor_account_id(), self.get_owner(), "Owner must be predecessor")`. -/
def assert_owner (env : Env) (p : Product) : Except String Unit :=
  if env.predecessor_account_id = p.owner then Except.ok ()
  else Except.error "Owner must be predecessor"

/-- `Ownable::set_owner for Product`: `self.assert_owner(); self.owner = owner;`. -/
def set_owner (env : Env) (p : Product) (owner : AccountId) :
    Except String Product := do
  let _ ← assert_owner env p
  Except.ok { p with owner := owner }

/-- `add_role_set_product`: assert owner, then grant `ROLE_SET_PRODUCT`. -/
def add_role_set_product (env : Env) (p : Product) (account : AccountId) :
    Except String Product := do
  let _ ← assert_owner env p
  Except.ok { p with access := p.access.setup_role ROLE_SET_PRODUCT account }

/-- `add_role_delete_product`: assert owner, then grant `ROLE_DELETE_PRODUCT`. -/
def add_role_delete_product (env : Env) (p : Product) (account : AccountId) :
    Except String Product := do
  let _ ← assert_owner env p
  Except.ok { p with access := p.access.setup_role ROLE_DELETE_PRODUCT account }

/-- `new()`: `assert!(!env::state_exists(), "The contract is already initialized")`,
then build the struct with empty maps and `owner = signer`, and grant the
signer both roles through the owner-gated entry points.  The prior contract
state (`some p` when `env::state_exists()`) is the first argument. -/
def new (env : Env) (st : Option Product) : Except String Product :=
  match st with
  | some _ => Except.error "The contract is already initialized"
  | none => do
    let this : Product :=
      { records := [], owner := env.signer_account_id, access := ⟨[]⟩ }
    let this ← add_role_set_product env this env.signer_account_id
    let this ← add_role_delete_product env this env.signer_account_id
    Except.ok this

/-- `set_products(address, name, price, stock)`:
`assert_eq!(self.access.has_role(&ROLE_SET_PRODUCT, &env::signer_account_id()), true, "401")`,
then `self.records.insert(&address, &item)` (the `env::log` call writes to an
external sink and is not modelled). -/
def set_products (env : Env) (p : Product) (address name : String)
    (price stock : Nat) : Except String Product :=
  if p.access.has_role ROLE_SET_PRODUCT env.signer_account_id then
    Except.ok
      { p with records := assocInsert p.records address ⟨name, price, stock⟩ }
  else Except.error "401"

/-- `get_products(address) -> Option<Item>`: `self.records.get(&address)`. -/
def get_products (p : Product) (address : String) : Option Item :=
  assocLookup p.records address

/-- `delete_products(address)`:
`assert_eq!(self.access.has_role(&ROLE_DELETE_PRODUCT, &env::signer_account_id()), true, "401")`,
then `self.records.remove(&address)`. -/
def delete_products (env : Env) (p : Product) (address : String) :
    Except String Product :=
  if p.access.has_role ROLE_DELETE_PRODUCT env.signer_account_id then
    Except.ok { p with records := assocRemove p.records address }
  else Except.error "401"

/-- Host semantics of a panicking initialization call: on panic the storage
keeps its previous contents. -/
def run_new (env : Env) (st : Option Product) :
    Option Product × Except String Unit :=
  match new env st with
  | Except.ok q => (some q, Except.ok ())
  | Except.error e => (st, Except.error e)

/-- Host semantics of a panicking mutating call on state `p`: on panic the
state is left unchanged. -/
def runMut (p : Product) (r : Except String Product) :
    Product × Except String Unit :=
  match r with
  | Except.ok q => (q, Except.ok ())
  | Except.error e => (p, Except.error e)

/-- The contract state right after `new()` invoked by `"Paul"` (signer and
predecessor both `"Paul"`, as in the repository's tests). -/
def pPaul : Product :=
  { records := []
    owner := "Paul"
    access := ⟨[(ROLE_SET_PRODUCT, ["Paul"]), (ROLE_DELETE_PRODUCT, ["Paul"])]⟩ }

/-!
Byte-level storage model.  A near-sdk `LookupMap` with prefix `pfx` stores the
Borsh serialization of a value under trie key `pfx ++ borsh(key)`.  `lib.rs`
constructs BOTH `records` and the `AccessControl.roles` map with the same
prefix `b"a"`, so the two maps read and write the same trie cells.  The model
below makes the trie explicit so that this sharing is visible.  Strings here
are ASCII, so a string's UTF-8 bytes are its character codes.
-/

namespace StorageModel

/-- Borsh little-endian `u32`. -/
def le32 (n : Nat) : List Nat :=
  [n % 256, n / 256 % 256, n / 65536 % 256, n / 16777216 % 256]

/-- Borsh little-endian `u128`. -/
def le128 (n : Nat) : List Nat :=
  (List.range 16).map (fun i => n / 256 ^ i % 256)

/-- Borsh `String`: `u32` length followed by the UTF-8 bytes (ASCII: the
character codes). -/
def borshString (s : String) : List Nat :=
  le32 s.length ++ s.data.map Char.toNat

/-- Borsh `Item`: fields in declaration order — `name`, `price: u128`,
`stock: u8`. -/
def borshItem (it : Item) : List Nat :=
  borshString it.name ++ le128 it.price ++ [it.stock % 256]

/-- Borsh `Vec<AccountId>`: `u32` count followed by the serialized strings. -/
def borshVecString (v : List String) : List Nat :=
  le32 v.length ++ (v.map borshString).flatten

/-- Read a Borsh `u32`, returning it and the remaining bytes. -/
def readLe32 : List Nat → Option (Nat × List Nat)
  | b0 :: b1 :: b2 :: b3 :: rest =>
    some (b0 + 256 * b1 + 65536 * b2 + 16777216 * b3, rest)
  | _ => none

/-- Read a Borsh `String`, returning it and the remaining bytes. -/
def readStr (bs : List Nat) : Option (String × List Nat) := do
  let (n, rest) ← readLe32 bs
  if n ≤ rest.length then
    some (String.mk ((rest.take n).map Char.ofNat), rest.drop n)
  else none

/-- Read `n` consecutive Borsh strings. -/
def readStrs : Nat → List Nat → Option (List String × List Nat)
  | 0, bs => some ([], bs)
  | n + 1, bs => do
    let (s, rest) ← readStr bs
    let (ss, rest2) ← readStrs n rest
    some (s :: ss, rest2)

/-- Deserialize a whole buffer as a Borsh `Vec<String>`; like
`try_from_slice`, fails unless the buffer is consumed exactly. -/
def readVecString (bs : List Nat) : Option (List String) := do
  let (n, rest) ← readLe32 bs
  let (ss, rest2) ← readStrs n rest
  if rest2.isEmpty then some ss else none

/-- The shared storage prefix `b"a"` passed to both `LookupMap::new` calls. -/
def pfxA : List Nat := [97]

/-- Contract state with the storage trie explicit: the trie cells written
through either `LookupMap`, plus the inline `owner` field. -/
structure SProduct where
  storage : List (List Nat × List Nat)
  owner : AccountId
  deriving DecidableEq, Repr

/-- Modelled from the spec (see `AccessControl`), at storage level: `has_role`
reads the role's holder set from trie key `b"a" ++ borsh(role)` and tests
membership; `none` models a panic when the cell's bytes do not deserialize as
a `Vec<AccountId>`. -/
def sHasRole (st : SProduct) (role acct : String) : Option Bool :=
  match assocLookup st.storage (pfxA ++ borshString role) with
  | none => some false
  | some bytes =>
    match readVecString bytes with
    | some holders => some (holders.contains acct)
    | none => none

/-- Modelled from the spec (see `AccessControl`), at storage level:
`setup_role` idempotently adds `acct` to the holder set stored at trie key
`b"a" ++ borsh(role)`. -/
def sSetupRole (st : SProduct) (role acct : String) : Except String SProduct :=
  let key := pfxA ++ borshString role
  match assocLookup st.storage key with
  | none =>
    Except.ok { st with storage := assocInsert st.storage key (borshVecString [acct]) }
  | some bytes =>
    match readVecString bytes with
    | none => Except.error "Cannot deserialize value with Borsh"
    | some hs =>
      let hs2 := if hs.contains acct then hs else hs ++ [acct]
      Except.ok { st with storage := assocInsert st.storage key (borshVecString hs2) }

/-- `new()` at storage level: `owner = signer`, then the two owner-gated
grants (whose `assert_owner` compares the predecessor with the owner). -/
def sNew (env : Env) : Except String SProduct := do
  let st : SProduct := { storage := [], owner := env.signer_account_id }
  if env.predecessor_account_id = st.owner then
    let st ← sSetupRole st ROLE_SET_PRODUCT env.signer_account_id
    if env.predecessor_account_id = st.owner then
      let st ← sSetupRole st ROLE_DELETE_PRODUCT env.signer_account_id
      Except.ok st
    else Except.error "Owner must be predecessor"
  else Except.error "Owner must be predecessor"

/-- `set_products` at storage level: the role check via `sHasRole`, then the
item written under trie key `b"a" ++ borsh(address)` — the records map and
the roles map use the same prefix `b"a"`. -/
def sSetProducts (env : Env) (st : SProduct) (address name : String)
    (price stock : Nat) : Except String SProduct :=
  match sHasRole st ROLE_SET_PRODUCT env.signer_account_id with
  | some true =>
    let s2 := assocInsert st.storage (pfxA ++ borshString address)
      (borshItem ⟨name, price, stock⟩)
    Except.ok { st with storage := s2 }
  | some false => Except.error "401"
  | none => Except.error "Cannot deserialize value with Borsh"

end StorageModel

instance {ε α : Type} [DecidableEq ε] [DecidableEq α] : DecidableEq (Except ε α) :=
  fun a b =>
  match a, b with
  | Except.ok x, Except.ok y =>
    if h : x = y then isTrue (by rw [h])
    else isFalse (by intro hc; cases hc; exact h rfl)
  | Except.error x, Except.error y =>
    if h : x = y then isTrue (by rw [h])
    else isFalse (by intro hc; cases hc; exact h rfl)
  | Except.ok _, Except.error _ => isFalse (by intro hc; cases hc)
  | Except.error _, Except.ok _ => isFalse (by intro hc; cases hc)

/-- Looking up a key right after inserting it yields the inserted value. -/
theorem assocLookup_assocInsert_self {α β : Type} [BEq α] [LawfulBEq α]
    (m : List (α × β)) (k : α) (v : β) :
    assocLookup (assocInsert m k v) k = some v := by
  induction m with
  | nil => simp [assocInsert, assocLookup]
  | cons e rest ih =>
    obtain ⟨k', v'⟩ := e
    cases hb : k' == k with
    | true => simp [assocInsert, hb, assocLookup]
    | false => simp [assocInsert, hb, assocLookup, ih]

/-- Looking up a key right after removing it yields nothing. -/
theorem assocLookup_assocRemove_self {α β : Type} [BEq α]
    (m : List (α × β)) (k : α) :
    assocLookup (assocRemove m k) k = none := by
  induction m with
  | nil => rfl
  | cons e rest ih =>
    obtain ⟨k', v'⟩ := e
    cases hb : k' == k with
    | true => simpa [assocRemove, List.filter, hb] using ih
    | false => simpa [assocRemove, List.filter, hb, assocLookup] using ih

/-- The idempotent-add step of `setupRoleList` always leaves the principal a
member of the holder set. -/
theorem contains_addHolder {hs : List AccountId} {a : AccountId} :
    (if hs.contains a then hs else a :: hs).contains a = true := by
  by_cases h : a ∈ hs <;> simp [h]

/-- After `setupRoleList`, the role is bound to a holder set containing the
principal. -/
theorem assocLookup_setupRoleList_self (m : List (String × List AccountId))
    (role acct : String) :
    ∃ hs, assocLookup (setupRoleList m role acct) role = some hs ∧
      hs.contains acct = true := by
  induction m with
  | nil => exact ⟨[acct], by simp [setupRoleList, assocLookup], by simp⟩
  | cons e rest ih =>
    obtain ⟨r, hs⟩ := e
    cases hb : r == role with
    | true =>
      refine ⟨if hs.contains acct then hs else acct :: hs, ?_, contains_addHolder⟩
      simp [setupRoleList, hb, assocLookup]
    | false =>
      obtain ⟨hs2, hl, hc⟩ := ih
      exact ⟨hs2, by simp [setupRoleList, hb, assocLookup, hl], hc⟩

/-- Granting the same role to the same principal twice gives the same role
list as granting it once. -/
theorem setupRoleList_idem (m : List (String × List AccountId))
    (role acct : String) :
    setupRoleList (setupRoleList m role acct) role acct =
      setupRoleList m role acct := by
  induction m with
  | nil => simp [setupRoleList]
  | cons e rest ih =>
    obtain ⟨r, hs⟩ := e
    cases hb : r == role with
    | true =>
      simp [setupRoleList, hb]
      by_cases h : acct ∈ hs <;> simp [h]
    | false => simp [setupRoleList, hb, ih]

/-- `has_role` holds right after the corresponding `setup_role`. -/
theorem hasRole_setupRole (ac : AccessControl) (role acct : String) :
    (ac.setup_role role acct).has_role role acct = true := by
  obtain ⟨hs, hl, hc⟩ := assocLookup_setupRoleList_self ac.roles role acct
  simp only [AccessControl.has_role, AccessControl.setup_role, hl]
  exact hc

/-- `setup_role` is idempotent on the `AccessControl` state. -/
theorem setupRole_idem (ac : AccessControl) (role acct : String) :
    (ac.setup_role role acct).setup_role role acct = ac.setup_role role acct := by
  simp [AccessControl.setup_role, setupRoleList_idem]

/-- Closed computation of `new` for a call whose predecessor equals its
signer: the fresh state has an empty record store, the signer as owner, and
the signer as sole holder of both built-in roles. -/
theorem new_self_eq (env : Env)
    (h : env.predecessor_account_id = env.signer_account_id) :
    new env none = Except.ok
      ⟨[], env.signer_account_id,
        ⟨[(ROLE_SET_PRODUCT, [env.signer_account_id]),
          (ROLE_DELETE_PRODUCT, [env.signer_account_id])]⟩⟩ := by
  obtain ⟨s, prd⟩ := env
  simp only at h
  subst h
  simp [new, add_role_set_product, add_role_delete_product, assert_owner,
    AccessControl.setup_role, setupRoleList, Bind.bind, Except.bind,
    show (ROLE_SET_PRODUCT == ROLE_DELETE_PRODUCT) = false from by decide]

/-- C1: a caller without `ROLE_SET_PRODUCT` makes `set_products` panic with
the fixed code "401" and leaves the state unchanged, while a caller with the
role succeeds and stores the item at the key; likewise `delete_products`
panics with "401" without `ROLE_DELETE_PRODUCT` and succeeds with it. -/
theorem c1_authorization_gate (env : Env) (p : Product) (k n : String)
    (pr s : Nat) :
    (p.access.has_role ROLE_SET_PRODUCT env.signer_account_id = false →
      runMut p (set_products env p k n pr s) = (p, Except.error "401")) ∧
    (p.access.has_role ROLE_SET_PRODUCT env.signer_account_id = true →
      ∃ q, set_products env p k n pr s = Except.ok q ∧
        get_products q k = some ⟨n, pr, s⟩) ∧
    (p.access.has_role ROLE_DELETE_PRODUCT env.signer_account_id = false →
      runMut p (delete_products env p k) = (p, Except.error "401")) ∧
    (p.access.has_role ROLE_DELETE_PRODUCT env.signer_account_id = true →
      ∃ q, delete_products env p k = Except.ok q) := by
  refine ⟨?_, ?_, ?_, ?_⟩
  · intro h; simp [runMut, set_products, h]
  · intro h
    refine ⟨{ p with records := assocInsert p.records k ⟨n, pr, s⟩ }, ?_, ?_⟩
    · simp [set_products, h]
    · simp [get_products, assocLookup_assocInsert_self]
  · intro h; simp [runMut, delete_products, h]
  · intro h
    exact ⟨{ p with records := assocRemove p.records k }, by simp [delete_products, h]⟩

/-- C1 witness: on the post-initialization state, `"Eve"` (no roles) gets
"401" with the state unchanged, and `"Paul"` (role holder) stores the item. -/
theorem c1_authorization_gate_witness :
    runMut pPaul (set_products ⟨"Eve", "Eve"⟩ pPaul "0x1" "PS4 x" 800 100) =
      (pPaul, Except.error "401") ∧
    ∃ q, set_products ⟨"Paul", "Paul"⟩ pPaul "0x1" "PS4 x" 800 100 = Except.ok q ∧
      get_products q "0x1" = some ⟨"PS4 x", 800, 100⟩ :=
  ⟨(c1_authorization_gate ⟨"Eve", "Eve"⟩ pPaul "0x1" "PS4 x" 800 100).1 (by decide),
   (c1_authorization_gate ⟨"Paul", "Paul"⟩ pPaul "0x1" "PS4 x" 800 100).2.1 (by decide)⟩

/-- C2: calling `new()` when contract state already exists panics with
"The contract is already initialized" and the stored state — records, owner
and role map — is exactly the prior one. -/
theorem c2_single_initialization (env : Env) (p : Product) :
    run_new env (some p) =
      (some p, Except.error "The contract is already initialized") := rfl

/-- C3: right after a successful `new()` the record store is empty, the owner
is the initializing signer, the signer holds both built-in roles, and the
signer can immediately perform `set_products` and `delete_products`. -/
theorem c3_owner_bootstrap (env : Env)
    (h : env.predecessor_account_id = env.signer_account_id) :
    ∃ q, new env none = Except.ok q ∧
      q.records = [] ∧
      q.owner = env.signer_account_id ∧
      q.access.has_role ROLE_SET_PRODUCT env.signer_account_id = true ∧
      q.access.has_role ROLE_DELETE_PRODUCT env.signer_account_id = true ∧
      (∀ k n pr s, ∃ q2, set_products env q k n pr s = Except.ok q2) ∧
      (∀ k, ∃ q2, delete_products env q k = Except.ok q2) := by
  refine ⟨_, new_self_eq env h, rfl, rfl, ?_, ?_, ?_, ?_⟩
  · simp [AccessControl.has_role, assocLookup]
  · simp [AccessControl.has_role, assocLookup,
      show (ROLE_SET_PRODUCT == ROLE_DELETE_PRODUCT) = false from by decide,
      show (ROLE_DELETE_PRODUCT == ROLE_DELETE_PRODUCT) = true from by decide]
  · intro k n pr s
    refine ⟨⟨[(k, ⟨n, pr, s⟩)], env.signer_account_id,
      ⟨[(ROLE_SET_PRODUCT, [env.signer_account_id]),
        (ROLE_DELETE_PRODUCT, [env.signer_account_id])]⟩⟩, ?_⟩
    simp [set_products, AccessControl.has_role, assocLookup, assocInsert]
  · intro k
    refine ⟨⟨[], env.signer_account_id,
      ⟨[(ROLE_SET_PRODUCT, [env.signer_account_id]),
        (ROLE_DELETE_PRODUCT, [env.signer_account_id])]⟩⟩, ?_⟩
    simp [delete_products, AccessControl.has_role, assocLookup, assocRemove,
      show (ROLE_SET_PRODUCT == ROLE_DELETE_PRODUCT) = false from by decide,
      show (ROLE_DELETE_PRODUCT == ROLE_DELETE_PRODUCT) = true from by decide]

/-- C3 witness: initialization by `"Paul"` calling from his own account. -/
theorem c3_owner_bootstrap_witness :
    ∃ q, new ⟨"Paul", "Paul"⟩ none = Except.ok q ∧
      q.records = [] ∧
      q.owner = "Paul" ∧
      q.access.has_role ROLE_SET_PRODUCT "Paul" = true ∧
      q.access.has_role ROLE_DELETE_PRODUCT "Paul" = true ∧
      (∀ k n pr s, ∃ q2, set_products ⟨"Paul", "Paul"⟩ q k n pr s = Except.ok q2) ∧
      (∀ k, ∃ q2, delete_products ⟨"Paul", "Paul"⟩ q k = Except.ok q2) :=
  c3_owner_bootstrap ⟨"Paul", "Paul"⟩ rfl

/-- C4: a successful `set_products` on a key followed by a second successful
`set_products` on the same key makes `get_products` return exactly the second
item — the stored record is fully replaced, with no field-level merging. -/
theorem c4_overwrite_semantics (env : Env) (p q1 q2 : Product)
    (k n1 n2 : String) (pr1 s1 pr2 s2 : Nat)
    (_h1 : set_products env p k n1 pr1 s1 = Except.ok q1)
    (h2 : set_products env q1 k n2 pr2 s2 = Except.ok q2) :
    get_products q2 k = some ⟨n2, pr2, s2⟩ := by
  unfold set_products at h2
  split at h2
  · cases h2
    simp [get_products, assocLookup_assocInsert_self]
  · cases h2

/-- C4 witness: scenario 4 of the spec — `set("0x1","PS5",500,12)` then
`set("0x1","PS5",1200,7)` leaves exactly the second item at `"0x1"`. -/
theorem c4_overwrite_semantics_witness :
    get_products { pPaul with records := [("0x1", ⟨"PS5", 1200, 7⟩)] } "0x1" =
      some ⟨"PS5", 1200, 7⟩ :=
  c4_overwrite_semantics ⟨"Paul", "Paul"⟩ pPaul
    { pPaul with records := [("0x1", ⟨"PS5", 500, 12⟩)] }
    { pPaul with records := [("0x1", ⟨"PS5", 1200, 7⟩)] }
    "0x1" "PS5" "PS5" 500 12 1200 7 (by decide) (by decide)

/-- C5: with `ROLE_DELETE_PRODUCT`, `delete_products` succeeds on every key —
also on keys that hold no item — and afterwards `get_products` on that key
returns `none`. -/
theorem c5_delete_then_get (env : Env) (p : Product) (k : String)
    (h : p.access.has_role ROLE_DELETE_PRODUCT env.signer_account_id = true) :
    ∃ q, delete_products env p k = Except.ok q ∧ get_products q k = none := by
  refine ⟨{ p with records := assocRemove p.records k }, ?_, ?_⟩
  · simp [delete_products, h]
  · simp [get_products, assocLookup_assocRemove_self]

/-- C5 witness: `"Paul"` deletes the never-set key `"0x9"`; the call succeeds
and the key reads back as absent. -/
theorem c5_delete_then_get_witness :
    ∃ q, delete_products ⟨"Paul", "Paul"⟩ pPaul "0x9" = Except.ok q ∧
      get_products q "0x9" = none :=
  c5_delete_then_get ⟨"Paul", "Paul"⟩ pPaul "0x9" (by decide)

/-- C6: granting a role twice (both at the `AccessControl` level and through
the owner-gated `add_role_set_product`) yields the same state and the same
`has_role = true` as granting it once, and an owner-issued grant never
fails. -/
theorem c6_idempotent_grant (ac : AccessControl) (R P : String) (env : Env)
    (p : Product) (a : AccountId)
    (h : env.predecessor_account_id = p.owner) :
    (ac.setup_role R P).setup_role R P = ac.setup_role R P ∧
    (ac.setup_role R P).has_role R P = true ∧
    ∃ q, add_role_set_product env p a = Except.ok q ∧
      add_role_set_product env q a = Except.ok q := by
  refine ⟨setupRole_idem ac R P, hasRole_setupRole ac R P,
    { p with access := p.access.setup_role ROLE_SET_PRODUCT a }, ?_, ?_⟩
  · simp [add_role_set_product, assert_owner, h, Bind.bind, Except.bind]
  · simp [add_role_set_product, assert_owner, h, Bind.bind, Except.bind,
      setupRole_idem]

/-- C6 witness: a fresh role name `"CAN_WRITE"` granted twice to `"Eve"` on an
empty `AccessControl`, and the built-in grant issued twice by owner
`"Paul"`. -/
theorem c6_idempotent_grant_witness :
    ((⟨[]⟩ : AccessControl).setup_role "CAN_WRITE" "Eve").setup_role "CAN_WRITE" "Eve" =
      (⟨[]⟩ : AccessControl).setup_role "CAN_WRITE" "Eve" ∧
    ((⟨[]⟩ : AccessControl).setup_role "CAN_WRITE" "Eve").has_role "CAN_WRITE" "Eve" = true ∧
    ∃ q, add_role_set_product ⟨"Paul", "Paul"⟩ pPaul "Eve" = Except.ok q ∧
      add_role_set_product ⟨"Paul", "Paul"⟩ q "Eve" = Except.ok q :=
  c6_idempotent_grant ⟨[]⟩ "CAN_WRITE" "Eve" ⟨"Paul", "Paul"⟩ pPaul "Eve" rfl

/-- C7: `set_owner` succeeds exactly when the caller is the current owner and
panics otherwise with the state unchanged; a successful transfer rewrites only
the `owner` field, so every `has_role` query — in particular those of the
previous owner — is unchanged. -/
theorem c7_ownership_transfer (env : Env) (p : Product) (o : AccountId) :
    (env.predecessor_account_id ≠ p.owner →
      runMut p (set_owner env p o) =
        (p, Except.error "Owner must be predecessor")) ∧
    (env.predecessor_account_id = p.owner →
      set_owner env p o = Except.ok ⟨p.records, o, p.access⟩) ∧
    (∀ q, set_owner env p o = Except.ok q →
      q.records = p.records ∧
      ∀ R P, q.access.has_role R P = p.access.has_role R P) := by
  refine ⟨?_, ?_, ?_⟩
  · intro h; simp [runMut, set_owner, assert_owner, h, Bind.bind, Except.bind]
  · intro h; simp [set_owner, assert_owner, h, Bind.bind, Except.bind]
  · intro q hq
    unfold set_owner assert_owner at hq
    split at hq
    · cases hq; exact ⟨rfl, fun _ _ => rfl⟩
    · cases hq

/-- C7 witness: non-owner `"Eve"` cannot transfer ownership and the state is
unchanged; owner `"Paul"` transfers to `"Eve"`, and the transferred state
keeps the records and every role answer of the original. -/
theorem c7_ownership_transfer_witness :
    runMut pPaul (set_owner ⟨"Eve", "Eve"⟩ pPaul "Eve") =
      (pPaul, Except.error "Owner must be predecessor") ∧
    set_owner ⟨"Paul", "Paul"⟩ pPaul "Eve" =
      Except.ok ⟨pPaul.records, "Eve", pPaul.access⟩ ∧
    (∀ R P, (⟨pPaul.records, "Eve", pPaul.access⟩ : Product).access.has_role R P =
      pPaul.access.has_role R P) :=
  ⟨(c7_ownership_transfer ⟨"Eve", "Eve"⟩ pPaul "Eve").1 (by decide),
   (c7_ownership_transfer ⟨"Paul", "Paul"⟩ pPaul "Eve").2.1 rfl,
   ((c7_ownership_transfer ⟨"Paul", "Paul"⟩ pPaul "Eve").2.2
      ⟨pPaul.records, "Eve", pPaul.access⟩ (by decide)).2⟩

/-- C8: the item store and the role store are NOT disjoint — both
`LookupMap`s are built with the identical storage prefix `b"a"`, so in the
byte-level storage model a `set_products` whose key is the string
`"ROLE_SET_PRODUCT"` overwrites the trie cell holding that role's holder set.
Concretely: after `new()` by `"Paul"`, `has_role(ROLE_SET_PRODUCT, "Paul")`
is `true`; the authorized call
`set_products("ROLE_SET_PRODUCT", "\x0e", 0, 0)` succeeds, and afterwards the
overwritten cell deserializes to a holder set not containing `"Paul"`, so
`has_role(ROLE_SET_PRODUCT, "Paul")` has become `false`. -/
theorem c8_prefix_collision_bug :
    ∃ st0 st1,
      StorageModel.sNew ⟨"Paul", "Paul"⟩ = Except.ok st0 ∧
      StorageModel.sHasRole st0 ROLE_SET_PRODUCT "Paul" = some true ∧
      StorageModel.sSetProducts ⟨"Paul", "Paul"⟩ st0 ROLE_SET_PRODUCT
        (String.mk [Char.ofNat 14]) 0 0 = Except.ok st1 ∧
      StorageModel.sHasRole st1 ROLE_SET_PRODUCT "Paul" = some false :=
  ⟨_, _, rfl, by decide, rfl, by decide⟩

/-- C9: `new()` succeeds exactly when the predecessor account equals the
signer account — the owner is set to the signer and the grant operations
assert that the predecessor is the owner — and otherwise it panics with the
non-owner error and no state is stored. -/
theorem c9_init_requires_self_call (env : Env) :
    (env.predecessor_account_id = env.signer_account_id →
      ∃ q, new env none = Except.ok q ∧ q.owner = env.signer_account_id) ∧
    (env.predecessor_account_id ≠ env.signer_account_id →
      run_new env none = (none, Except.error "Owner must be predecessor")) := by
  constructor
  · intro h
    exact ⟨_, new_self_eq env h, rfl⟩
  · intro h
    simp [run_new, new, add_role_set_product, assert_owner, h,
      Bind.bind, Except.bind]

/-- C9 witness: `"Paul"` calling from his own account initializes and owns
the contract; an initialization whose signer is `"Paul"` but whose
predecessor is `"Eve"` panics with the non-owner error and stores nothing. -/
theorem c9_init_requires_self_call_witness :
    (∃ q, new ⟨"Paul", "Paul"⟩ none = Except.ok q ∧ q.owner = "Paul") ∧
    run_new ⟨"Paul", "Eve"⟩ none =
      (none, Except.error "Owner must be predecessor") :=
  ⟨(c9_init_requires_self_call ⟨"Paul", "Paul"⟩).1 rfl,
   (c9_init_requires_self_call ⟨"Paul", "Eve"⟩).2 (by decide)⟩

/-- C10: `set_products` and `delete_products` read only the signer account:
two calls with the same arguments, the same state and the same signer but
different predecessors return the same result and the same new state. -/
theorem c10_signer_not_predecessor (env1 env2 : Env) (p : Product)
    (k n : String) (pr s : Nat)
    (h : env1.signer_account_id = env2.signer_account_id) :
    set_products env1 p k n pr s = set_products env2 p k n pr s ∧
    delete_products env1 p k = delete_products env2 p k := by
  constructor
  · simp [set_products, h]
  · simp [delete_products, h]

/-- C10 witness: same signer `"Paul"`, predecessors `"Paul"` vs `"Eve"` —
identical outcomes for both mutating operations. -/
theorem c10_signer_not_predecessor_witness :
    set_products ⟨"Paul", "Paul"⟩ pPaul "0x1" "PS5" 500 12 =
      set_products ⟨"Paul", "Eve"⟩ pPaul "0x1" "PS5" 500 12 ∧
    delete_products ⟨"Paul", "Paul"⟩ pPaul "0x1" =
      delete_products ⟨"Paul", "Eve"⟩ pPaul "0x1" :=
  c10_signer_not_predecessor ⟨"Paul", "Paul"⟩ ⟨"Paul", "Eve"⟩ pPaul
    "0x1" "PS5" 500 12 rfl

end SmartContractNear
